import Mathlib

/-!
Verification of the SQLite Logger core (src/src/sqlite_logger.c together with
src/include/sqlite_logger.h) against its natural-language specification.

The C module keeps a fixed-capacity in-memory cache of log entries
(`gLogEntries` with `gLogEntryCount` used slots), a process-wide log level
(`gLogLevel`), and a SQLite database handle plus a prepared insert statement.
The shallow embedding below models:

* C strings as `List Nat` of byte values (0 is the NUL terminator);
* the fixed-size character-array fields of `tSL_LogEntry` as `List Nat` whose
  length is the field's bound;
* the process-wide mutable globals as an explicit state record `SLState`;
* the SQLite collaborator as oracles (`StoreOracle` for the result codes of
  BEGIN / per-row bind+step+reset / COMMIT during `SL_ProcessTransaction`,
  `InitOracle` for the result codes of the open/table/view/prepare steps of
  `SL_Initialize`).  A result code of 0 is `SQLITE_OK`/`SL_RESULT_SUCCESS`;
* the timestamp text written by `SL_GetTimestamp` (strftime/gettimeofday,
  environment-dependent) as an input `ts` supplied with each log call;
* the committed rows of the current session's table as an ordered list
  `store`; list order corresponds to ascending auto-increment `log_id`;
* a ghost counter `flushes` that counts the calls of `SL_ProcessTransaction`
  made by `SL_Log`/`SL_Terminate` (it mirrors control flow only and is not
  read by any modelled operation).
-/

namespace SqliteLogger

/-! ## Result codes (include/sqlite_logger.h) and errno values (Linux) -/

abbrev SL_RESULT_SUCCESS : Int := 0
abbrev SL_RESULT_RESERVED_START : Int := -1
abbrev SL_RESULT_FAILURE : Int := SL_RESULT_RESERVED_START
abbrev SL_RESULT_NOT_INITIALIZED : Int := SL_RESULT_RESERVED_START - 1
abbrev SL_RESULT_ALREADY_INITIALIZED : Int := SL_RESULT_RESERVED_START - 2
abbrev SL_RESULT_RESERVED_END : Int := -31

abbrev EFAULT : Int := 14
abbrev EINVAL : Int := 22

abbrev SQLITE_ERROR : Int := 1

/-! ## Log levels (enum tsl_loglevel); the C enum is an int -/

abbrev eSL_LogLevel_Diagnostic : Int := 0
abbrev eSL_LogLevel_Detail : Int := 1
abbrev eSL_LogLevel_Info : Int := 2
abbrev eSL_LogLevel_Warning : Int := 3
abbrev eSL_LogLevel_Error : Int := 4
abbrev eSL_LogLevel_None : Int := 5

/-! ## Fixed string lengths (sqlite_logger.c lines 62-69) -/

abbrev SL_TIMESTAMP_STRING_LENGTH : Nat := 32
abbrev SL_MESSAGE_STRING_LENGTH : Nat := 1024
abbrev SL_LEVEL_STRING_LENGTH : Nat := 16
abbrev SL_FILE_NAME_STRING_LENGTH : Nat := 256
abbrev SL_FUNCTION_NAME_STRING_LENGTH : Nat := 256
abbrev SL_TAG_STRING_LENGTH : Nat := 128
abbrev SL_SUPPLEMENTAL_DATA_STRING_LENGTH : Nat := 1024

/-- Byte list of a Lean string literal, used to write down concrete C strings. -/
def strBytes (s : String) : List Nat := s.toList.map Char.toNat

/-! ## The level label strings (sqlite_logger.c lines 72-77) -/

def kSL_DiagnosticLevelString : List Nat := strBytes "Diagnostic"
def kSL_DetailLevelString : List Nat := strBytes "Detail"
def kSL_InfoLevelString : List Nat := strBytes "Info"
def kSL_WarningLevelString : List Nat := strBytes "Warning"
def kSL_ErrorLevelString : List Nat := strBytes "Error"
def kSL_NoneLevelString : List Nat := strBytes "None"

/-! ## strncpy-based bounded field copies (SL_AddLogEntry) -/

/-- `strncpy(dst, src, n)` on a destination buffer `dst` (a fixed-size char
array given as its full byte contents): writes the first `min n (length src)`
bytes of `src`, pads with NUL up to `n` bytes if `src` is shorter than `n`,
and leaves `dst` beyond index `n` unchanged.  `src` is the byte content of a
NUL-terminated C string (so it contains no 0 byte itself). -/
def strncpyBytes (src : List Nat) (n : Nat) (dst : List Nat) : List Nat :=
  (src.take n ++ List.replicate (n - src.length) 0) ++ dst.drop n

/-- The exact copy pattern used for every string field in `SL_AddLogEntry`
(sqlite_logger.c lines 261-317):
`strncpy(dst, src, strlen(src) < (BOUND - 1) ? strlen(src) : BOUND)`. -/
def copyBoundedField (src : List Nat) (bound : Nat) (dst : List Nat) : List Nat :=
  strncpyBytes src (if src.length < bound - 1 then src.length else bound) dst

/-- The level-label selection if-chain of `SL_AddLogEntry` (lines 267-290):
any level other than 0-4 (in particular `eSL_LogLevel_None`) falls through to
the final `else` and gets the label "None". -/
def levelString (level : Int) : List Nat :=
  if level = eSL_LogLevel_Diagnostic then kSL_DiagnosticLevelString
  else if level = eSL_LogLevel_Detail then kSL_DetailLevelString
  else if level = eSL_LogLevel_Info then kSL_InfoLevelString
  else if level = eSL_LogLevel_Warning then kSL_WarningLevelString
  else if level = eSL_LogLevel_Error then kSL_ErrorLevelString
  else kSL_NoneLevelString

/-! ## Log entries (struct tsl_logentry) -/

/-- One slot of the entry cache.  Each string field is the full byte content
of the corresponding fixed-size char array. -/
structure tSL_LogEntry where
  timestamp : List Nat
  message : List Nat
  level : List Nat
  fileName : List Nat
  functionName : List Nat
  lineNumber : Nat
  tag : List Nat
  supplementalData : List Nat

/-- A fully zeroed slot, as produced by the `memset` calls in `SL_Initialize`,
`SL_Terminate` and `SL_Log`. -/
def zeroEntry : tSL_LogEntry :=
  { timestamp := List.replicate SL_TIMESTAMP_STRING_LENGTH 0
    message := List.replicate SL_MESSAGE_STRING_LENGTH 0
    level := List.replicate SL_LEVEL_STRING_LENGTH 0
    fileName := List.replicate SL_FILE_NAME_STRING_LENGTH 0
    functionName := List.replicate SL_FUNCTION_NAME_STRING_LENGTH 0
    lineNumber := 0
    tag := List.replicate SL_TAG_STRING_LENGTH 0
    supplementalData := List.replicate SL_SUPPLEMENTAL_DATA_STRING_LENGTH 0 }

/-- The arguments of one `SL_Log` call.  `ts` is the timestamp text the
environment produces for this call (`SL_GetTimestamp`); nullable C string
arguments are `Option`s. -/
structure LogCall where
  ts : List Nat
  message : Option (List Nat)
  level : Int
  fileName : Option (List Nat)
  functionName : Option (List Nat)
  lineNumber : Nat
  tag : Option (List Nat)
  supplementalData : Option (List Nat)

/-- The copy `SL_AddLogEntry` performs for an optional (nullable) argument:
a NULL pointer skips the copy and leaves the slot's field unchanged. -/
def optCopy (src : Option (List Nat)) (bound : Nat) (dst : List Nat) : List Nat :=
  match src with
  | none => dst
  | some s => copyBoundedField s bound dst

/-- `SL_GetTimestamp` writing into a slot's 32-byte timestamp field: the
environment-supplied text, truncated to 31 bytes, NUL-padded to the field
size.  The text itself comes from strftime/gettimeofday and is opaque here. -/
def timestampWrite (ts : List Nat) : List Nat :=
  ts.take (SL_TIMESTAMP_STRING_LENGTH - 1)
    ++ List.replicate (SL_TIMESTAMP_STRING_LENGTH - min ts.length (SL_TIMESTAMP_STRING_LENGTH - 1)) 0

/-- The field writes of `SL_AddLogEntry` (lines 258-317) into the slot
`gLogEntries[gLogEntryCount]`, whose previous content is `slot`. -/
def writeEntry (c : LogCall) (slot : tSL_LogEntry) : tSL_LogEntry :=
  { timestamp := timestampWrite c.ts
    message := copyBoundedField (c.message.getD []) SL_MESSAGE_STRING_LENGTH slot.message
    level := copyBoundedField (levelString c.level) SL_LEVEL_STRING_LENGTH slot.level
    fileName := optCopy c.fileName SL_FILE_NAME_STRING_LENGTH slot.fileName
    functionName := optCopy c.functionName SL_FUNCTION_NAME_STRING_LENGTH slot.functionName
    lineNumber := c.lineNumber
    tag := optCopy c.tag SL_TAG_STRING_LENGTH slot.tag
    supplementalData := optCopy c.supplementalData SL_SUPPLEMENTAL_DATA_STRING_LENGTH slot.supplementalData }

/-- The entry a call produces when written into a zeroed slot (the only case
that occurs in reachable states). -/
def entryOf (c : LogCall) : tSL_LogEntry := writeEntry c zeroEntry

/-! ## The process-wide state (private globals, sqlite_logger.c lines 101-106) -/

/-- The mutable globals of the module.  `dbOpen` is `gSQLiteDatabase != NULL`,
`insertStmt` is `gInsertStatement != NULL`, `store` is the list of rows
committed to the current session's table (in ascending `log_id` order), and
`flushes` is a ghost counter of `SL_ProcessTransaction` invocations. -/
structure SLState where
  dbOpen : Bool
  insertStmt : Bool
  logLevel : Int
  logEntries : List tSL_LogEntry
  logEntryCount : Nat
  store : List tSL_LogEntry
  flushes : Nat

/-- Process start: statics zero-initialized, `gLogLevel = eSL_LogLevel_Info`.
`N` is `SL_LOG_ENTRY_CACHE_SIZE` (a build-time constant from
`sqlite_logger_config.h`, kept as a parameter). -/
def startState (N : Nat) : SLState :=
  { dbOpen := false
    insertStmt := false
    logLevel := eSL_LogLevel_Info
    logEntries := List.replicate N zeroEntry
    logEntryCount := 0
    store := []
    flushes := 0 }

/-! ## The store collaborator -/

/-- Result codes the SQLite collaborator returns during one
`SL_ProcessTransaction`: the BEGIN, one code per buffered row (the first
failing code of that row's bind/step/reset chain, or 0 if the whole chain
succeeds), and the END (commit). -/
structure StoreOracle where
  beginCode : Int
  rowCode : Nat → Int
  commitCode : Int

/-- A store that accepts everything. -/
def StoreOK (ora : StoreOracle) : Prop :=
  ora.beginCode = 0 ∧ (∀ i, ora.rowCode i = 0) ∧ ora.commitCode = 0

/-- The per-row loop of `SL_ProcessTransaction` (lines 339-509): rows are
bound and stepped in buffer order; the first failing row stops the loop with
its code, otherwise every row is inserted (pending, inside the open
transaction) in order. -/
def insertLoop (rowCode : Nat → Int) : List tSL_LogEntry → Nat → Except Int (List tSL_LogEntry)
  | [], _ => Except.ok []
  | e :: rest, i =>
    if rowCode i ≠ 0 then Except.error (rowCode i)
    else
      match insertLoop rowCode rest (i + 1) with
      | Except.error c => Except.error c
      | Except.ok tl => Except.ok (e :: tl)

/-- `SL_ProcessTransaction` (lines 328-537) on the first `count` buffered
entries.  Returns the result code and the rows this call committed to the
store: on BEGIN failure nothing was inserted; on a per-row failure the
transaction is rolled back (line 523), discarding every pending insert; on
COMMIT failure nothing is committed; only a fully successful commit publishes
the batch. -/
def SL_ProcessTransaction (ora : StoreOracle) (entries : List tSL_LogEntry) :
    Int × List tSL_LogEntry :=
  if ora.beginCode ≠ 0 then (ora.beginCode, [])
  else
    match insertLoop ora.rowCode entries 0 with
    | Except.error c => (c, [])
    | Except.ok pending =>
      if ora.commitCode ≠ 0 then (ora.commitCode, [])
      else (SL_RESULT_SUCCESS, pending)

/-! ## SL_AddLogEntry -/

/-- `SL_AddLogEntry` (lines 248-323): writes the fields into
`gLogEntries[gLogEntryCount]` and increments `gLogEntryCount`.  It always
returns `SL_RESULT_SUCCESS`, so only the state change is modelled. -/
def SL_AddLogEntry (c : LogCall) (st : SLState) : SLState :=
  { st with
    logEntries := st.logEntries.set st.logEntryCount
      (writeEntry c (st.logEntries.getD st.logEntryCount zeroEntry))
    logEntryCount := st.logEntryCount + 1 }

/-! ## SL_Log -/

/-- The argument checks at the top of `SL_Log` (lines 733-755).  Note the
level check is a separate `if` (not `else if`), so an invalid level
overwrites the message-check result with `EINVAL`. -/
def SL_LogArgCheck (c : LogCall) : Int :=
  let r1 : Int :=
    match c.message with
    | none => EFAULT
    | some m => if m = [] then EINVAL else SL_RESULT_SUCCESS
  if c.level < eSL_LogLevel_Diagnostic ∨ eSL_LogLevel_None < c.level then EINVAL else r1

/-- `SL_Log` (lines 723-801) with cache capacity `N` =
`SL_LOG_ENTRY_CACHE_SIZE`.  After the argument and initialization checks, the
level gate `level >= gLogLevel` decides capture; an accepted entry is stored
directly while `gLogEntryCount < N - 1`, otherwise `SL_ProcessTransaction`
runs first and only on its success is the cache cleared (count reset, slots
zeroed) and the new entry appended. -/
def SL_Log (N : Nat) (ora : StoreOracle) (c : LogCall) (st : SLState) : Int × SLState :=
  let r := SL_LogArgCheck c
  if r = SL_RESULT_SUCCESS then
    if st.dbOpen then
      if st.logLevel ≤ c.level then
        if st.logEntryCount < N - 1 then
          (SL_RESULT_SUCCESS, SL_AddLogEntry c st)
        else
          let pr := SL_ProcessTransaction ora (st.logEntries.take st.logEntryCount)
          if pr.1 = SL_RESULT_SUCCESS then
            (SL_RESULT_SUCCESS, SL_AddLogEntry c
              { st with
                logEntryCount := 0
                logEntries := List.replicate N zeroEntry
                store := st.store ++ pr.2
                flushes := st.flushes + 1 })
          else
            (pr.1, { st with store := st.store ++ pr.2, flushes := st.flushes + 1 })
      else (SL_RESULT_SUCCESS, st)
    else (SL_RESULT_NOT_INITIALIZED, st)
  else (r, st)

/-- Run a sequence of `SL_Log` calls (the per-call results are dropped). -/
def runLogs (N : Nat) (ora : StoreOracle) : List LogCall → SLState → SLState
  | [], st => st
  | c :: rest, st => runLogs N ora rest (SL_Log N ora c st).2

/-! ## SL_Initialize / SL_Terminate / level accessors -/

/-- Result codes of the store steps performed by `SL_Initialize`:
`sqlite3_open_v2`, `SL_CreateTable`, the five `SL_CreateView` calls and the
`sqlite3_prepare_v2` of the insert statement. -/
structure InitOracle where
  openCode : Int
  tableCode : Int
  viewDiagCode : Int
  viewDetailCode : Int
  viewInfoCode : Int
  viewWarnCode : Int
  viewErrCode : Int
  prepareCode : Int

/-- An initialization in which every store step succeeds. -/
def InitOK (ora : InitOracle) : Prop :=
  ora.openCode = 0 ∧ ora.tableCode = 0 ∧ ora.viewDiagCode = 0 ∧ ora.viewDetailCode = 0
    ∧ ora.viewInfoCode = 0 ∧ ora.viewWarnCode = 0 ∧ ora.viewErrCode = 0 ∧ ora.prepareCode = 0

/-- `SL_Initialize` (lines 542-631).  Checks path, then already-initialized,
then opens the database (setting the handle), creates the table and views,
zeroes the entry cache via `memset`, and prepares the insert statement.  The
source never resets `gLogEntryCount` or `gLogLevel` here.  A successful call
starts a fresh session table, so `store` restarts empty. -/
def SL_Initialize (N : Nat) (ora : InitOracle) (path : Option (List Nat)) (st : SLState) :
    Int × SLState :=
  match path with
  | none => (EFAULT, st)
  | some p =>
    if p = [] then (EINVAL, st)
    else if st.dbOpen then (SL_RESULT_ALREADY_INITIALIZED, st)
    else if ora.openCode ≠ 0 then (ora.openCode, st)
    else
      let st1 := { st with dbOpen := true }
      if ora.tableCode ≠ 0 then (ora.tableCode, st1)
      else if ora.viewDiagCode ≠ 0 then (ora.viewDiagCode, st1)
      else if ora.viewDetailCode ≠ 0 then (ora.viewDetailCode, st1)
      else if ora.viewInfoCode ≠ 0 then (ora.viewInfoCode, st1)
      else if ora.viewWarnCode ≠ 0 then (ora.viewWarnCode, st1)
      else if ora.viewErrCode ≠ 0 then (ora.viewErrCode, st1)
      else
        let st2 := { st1 with logEntries := List.replicate N zeroEntry, store := [] }
        if ora.prepareCode ≠ 0 then (ora.prepareCode, st2)
        else (SL_RESULT_SUCCESS, { st2 with insertStmt := true })

/-- `SL_Terminate` (lines 636-675).  If initialized: a non-empty cache forces
`SL_ProcessTransaction`, whose success clears the cache and whose failure is
kept as the returned result; in either case the insert statement is finalized
and the database handle is closed.  Otherwise `SL_RESULT_NOT_INITIALIZED`. -/
def SL_Terminate (N : Nat) (ora : StoreOracle) (st : SLState) : Int × SLState :=
  if st.dbOpen then
    let r :=
      if 0 < st.logEntryCount then
        let pr := SL_ProcessTransaction ora (st.logEntries.take st.logEntryCount)
        if pr.1 = SL_RESULT_SUCCESS then
          (SL_RESULT_SUCCESS,
            { st with
              logEntryCount := 0
              logEntries := List.replicate N zeroEntry
              store := st.store ++ pr.2
              flushes := st.flushes + 1 })
        else
          (pr.1, { st with store := st.store ++ pr.2, flushes := st.flushes + 1 })
      else (SL_RESULT_SUCCESS, st)
    (r.1, { r.2 with insertStmt := false, dbOpen := false })
  else (SL_RESULT_NOT_INITIALIZED, st)

/-- `SL_SetLogLevel` (lines 680-695): levels outside
`[eSL_LogLevel_Diagnostic, eSL_LogLevel_None]` fail with `EINVAL` and leave
the level unchanged. -/
def SL_SetLogLevel (level : Int) (st : SLState) : Int × SLState :=
  if eSL_LogLevel_Diagnostic ≤ level ∧ level ≤ eSL_LogLevel_None then
    (SL_RESULT_SUCCESS, { st with logLevel := level })
  else (EINVAL, st)

/-- `SL_GetLogLevel` (lines 700-718).  `ptrValid` models whether the out
pointer is non-NULL. -/
def SL_GetLogLevel (ptrValid : Bool) (st : SLState) : Int × Option Int :=
  if ptrValid then (SL_RESULT_SUCCESS, some st.logLevel) else (EFAULT, none)

/-! ## SL_Result_String -/

/-- Models libc `strerror`, which returns a (possibly "Unknown error") text
for every code; only its totality matters here. -/
def strerror (code : Int) : String := "system error " ++ toString code

/-- The four-element result-string table (sqlite_logger.c lines 27-32). -/
def kSL_ResultStrings : List String :=
  ["", "Unknown error code", "Not initialized", "Already initialized"]

/-- `SL_Result_String` (lines 806-827).  For a code in the library-reserved
range the source computes `index = (uint32_t)(-1.0 * resultCode)` — exact for
codes in [-31, -1], so the index is `-resultCode` — and reads
`kSL_ResultStrings[index]` without a bounds check.  The read is modelled with
`List.get?`: `none` is an out-of-bounds access (undefined behavior in the C). -/
def SL_Result_String (resultCode : Int) : Option String :=
  if SL_RESULT_SUCCESS < resultCode then some (strerror resultCode)
  else if resultCode ≤ SL_RESULT_RESERVED_START ∧ SL_RESULT_RESERVED_END ≤ resultCode then
    kSL_ResultStrings.get? (-resultCode).toNat
  else some (kSL_ResultStrings.getD 0 "")

/-! ## Concrete data used by witnesses and counterexamples -/

/-- A store that accepts every operation. -/
def okStore : StoreOracle := { beginCode := 0, rowCode := fun _ => 0, commitCode := 0 }

/-- A store whose first row insert fails with `SQLITE_ERROR`. -/
def failStore : StoreOracle := { beginCode := 0, rowCode := fun _ => SQLITE_ERROR, commitCode := 0 }

/-- An initialization in which every store step returns `SQLITE_OK`. -/
def okInitOracle : InitOracle :=
  { openCode := 0, tableCode := 0, viewDiagCode := 0, viewDetailCode := 0
    viewInfoCode := 0, viewWarnCode := 0, viewErrCode := 0, prepareCode := 0 }

/-- A concrete database path argument. -/
def testPath : List Nat := strBytes "unit_test.sqlite3"

/-- The state right after a successful `SL_Initialize` on a fresh process:
cache zeroed, count 0, default level Info, handles live. -/
def initState (N : Nat) : SLState :=
  { dbOpen := true
    insertStmt := true
    logLevel := eSL_LogLevel_Info
    logEntries := List.replicate N zeroEntry
    logEntryCount := 0
    store := []
    flushes := 0 }

/-- A valid Info-level log call. -/
def infoCall : LogCall :=
  { ts := strBytes "2022-02-19 12:00:00.000000 CST"
    message := some (strBytes "a message")
    level := eSL_LogLevel_Info
    fileName := none
    functionName := none
    lineNumber := 7
    tag := none
    supplementalData := none }

/-- A valid log call carrying `eSL_LogLevel_None`. -/
def noneLevelCall : LogCall :=
  { infoCall with level := eSL_LogLevel_None }

/-- A valid Diagnostic-level call (below the default Info threshold). -/
def diagCall : LogCall :=
  { infoCall with level := eSL_LogLevel_Diagnostic }

/-- An initialized session whose two-slot cache already holds one entry, so
the next accepted call must flush. -/
def c1State : SLState :=
  { initState 2 with logEntryCount := 1 }

/-- C8 trace, step 1: first successful initialization of the process. -/
def c8AfterInit : SLState :=
  ( SL_Initialize 2 okInitOracle (some testPath) (startState 2)).2

/-- C8 trace, step 2: one accepted Info entry is cached. -/
def c8AfterLog : SLState := (SL_Log 2 okStore infoCall c8AfterInit).2

/-- C8 trace, step 3: terminate while the store rejects the teardown flush. -/
def c8Terminate : Int × SLState := SL_Terminate 2 failStore c8AfterLog

/-- C8 trace, step 4: re-initialize; every store step succeeds. -/
def c8Reinit : Int × SLState :=
  SL_Initialize 2 okInitOracle (some testPath) c8Terminate.2

/-- C9 trace: initialize, set the threshold to Error, terminate (empty cache),
initialize again. -/
def c9AfterSet : SLState :=
  (SL_SetLogLevel eSL_LogLevel_Error
    ( SL_Initialize 2 okInitOracle (some testPath) (startState 2)).2).2

/-- C9 trace: the successful terminate after `SL_SetLogLevel`. -/
def c9Terminate : Int × SLState := SL_Terminate 2 okStore c9AfterSet

/-- C9 trace: the second successful initialize of the process. -/
def c9Reinit : Int × SLState :=
  SL_Initialize 2 okInitOracle (some testPath) c9Terminate.2

/-! ## Validity of SL_Log arguments and the level gate -/

/-- The `SL_Log` argument checks pass: non-NULL non-empty message and a level
inside `[eSL_LogLevel_Diagnostic, eSL_LogLevel_None]`. -/
def validArgsB (c : LogCall) : Bool :=
  match c.message with
  | none => false
  | some m => decide (m ≠ []) && decide (0 ≤ c.level) && decide (c.level ≤ 5)

/-- The call passes the argument checks and the level gate at threshold
`lvl`: this is exactly the condition under which `SL_Log` stores the entry
(given an initialized session and a working store). -/
def acceptedB (lvl : Int) (c : LogCall) : Bool :=
  validArgsB c && decide (lvl ≤ c.level)

/-- The committed rows followed by the still-buffered entries, in order. -/
def bufStore (st : SLState) : List tSL_LogEntry :=
  st.store ++ st.logEntries.take st.logEntryCount

/-- The cache shape every reachable state of an initialized session has:
`N` slots, fewer than `N` in use, and every unused slot zeroed. -/
def BufferInv (N : Nat) (st : SLState) : Prop :=
  st.logEntries.length = N
  ∧ st.logEntryCount ≤ N - 1
  ∧ st.logEntries.drop st.logEntryCount
      = List.replicate (N - st.logEntryCount) zeroEntry

end SqliteLogger

namespace SqliteLogger

/-! ## Generic list lemmas about the cache array -/

theorem take_set_succ {α : Type} (l : List α) (n : Nat) (e : α) (h : n < l.length) :
    (l.set n e).take (n + 1) = l.take n ++ [e] := by
  induction l generalizing n with
  | nil => simp at h
  | cons a t ih =>
    cases n with
    | zero => simp
    | succ m =>
      simp only [List.set, List.take_succ_cons, List.cons_append]
      rw [ih m (by simpa using h)]

theorem drop_set_succ {α : Type} (l : List α) (n : Nat) (e : α) :
    (l.set n e).drop (n + 1) = l.drop (n + 1) := by
  induction l generalizing n with
  | nil => simp
  | cons a t ih =>
    cases n with
    | zero => simp
    | succ m => simpa using ih m

theorem getD_of_drop_cons {α : Type} (l : List α) (n : Nat) (d z : α) (rest : List α)
    (h : l.drop n = z :: rest) : l.getD n d = z := by
  induction l generalizing n with
  | nil => simp at h
  | cons a t ih =>
    cases n with
    | zero => simpa using congrArg (fun s => s.headD d) h
    | succ m => exact ih m (by simpa using h)

/-! ## C5: truncation of over-long fields -/

/-- A field copy never writes outside the field: the stored field keeps the
field's allocated size. -/
theorem copyBoundedField_length (src : List Nat) (bound : Nat) (dst : List Nat)
    (h : dst.length = bound) :
    (copyBoundedField src bound dst).length = bound := by
  unfold copyBoundedField strncpyBytes
  split
  · simp [h]; omega
  · simp [h]; omega

/-- For a source of length at least `bound`, the copy fills the whole field
with the first `bound` source bytes and writes no NUL terminator at all. -/
theorem copyBoundedField_overlong (src : List Nat) (bound : Nat) (dst : List Nat)
    (h : bound ≤ src.length) (hdst : dst.length = bound) :
    copyBoundedField src bound dst = src.take bound := by
  unfold copyBoundedField strncpyBytes
  rw [if_neg (by omega)]
  have h1 : bound - src.length = 0 := by omega
  simp [h1, List.drop_eq_nil_of_le, hdst]

/-- C5: the spec demands that a field whose input exceeds its bound is stored
as the input truncated to bound − 1 characters followed by a NUL terminator.
The source instead passes `n = bound` to `strncpy` whenever
`strlen(src) >= bound - 1`, so a message of exactly
`SL_MESSAGE_STRING_LENGTH` (1024) non-NUL bytes fills the whole field with
1024 message bytes and no terminator: the stored bytes contain no NUL and
differ from the 1023-bytes-plus-terminator value the claim requires (the copy
does stay inside the field's bound). -/
theorem c5_overlong_message_unterminated :
    copyBoundedField (List.replicate SL_MESSAGE_STRING_LENGTH 97) SL_MESSAGE_STRING_LENGTH
        (List.replicate SL_MESSAGE_STRING_LENGTH 0)
      = List.replicate SL_MESSAGE_STRING_LENGTH 97
    ∧ ¬ (0 ∈ List.replicate SL_MESSAGE_STRING_LENGTH 97)
    ∧ List.replicate SL_MESSAGE_STRING_LENGTH 97
        ≠ List.replicate (SL_MESSAGE_STRING_LENGTH - 1) 97 ++ [0] := by
  refine ⟨?_, ?_, ?_⟩
  · rw [copyBoundedField_overlong _ _ _ (by simp) (by simp)]
    simp
  · simp [List.mem_replicate]
  · intro h
    have h0 : (0 : Nat) ∈ List.replicate (SL_MESSAGE_STRING_LENGTH - 1) 97 ++ [0] :=
      List.mem_append_right _ (by simp)
    rw [← h] at h0
    simp [List.mem_replicate] at h0

/-- C7: the spec claims `SL_Result_String` always returns a valid fallback
string, in particular for every code in the reserved range [-31, -1].  The
source indexes the 4-element `kSL_ResultStrings` with `-resultCode`, so every
code in [-31, -4] reads past the end of the array (undefined behavior,
modelled as `none`); -4 is such a code and lies inside the claimed range. -/
theorem c7_reserved_code_out_of_bounds :
    (SL_RESULT_RESERVED_END ≤ -4 ∧ -4 ≤ SL_RESULT_RESERVED_START)
    ∧ SL_Result_String (-4) = none := by
  exact ⟨by decide, by decide⟩

/-! ## Unfolding lemmas for SL_Log -/

theorem validArgsB_spec {c : LogCall} (h : validArgsB c = true) :
    ∃ m, c.message = some m ∧ m ≠ [] ∧ 0 ≤ c.level ∧ c.level ≤ 5 := by
  rcases hm : c.message with _ | m
  · rw [validArgsB, hm] at h
    exact absurd h (by simp)
  · rw [validArgsB, hm] at h
    simp only [Bool.and_eq_true, decide_eq_true_eq] at h
    exact ⟨m, rfl, h.1.1, h.1.2, h.2⟩

theorem acceptedB_spec {lvl : Int} {c : LogCall} (h : acceptedB lvl c = true) :
    validArgsB c = true ∧ lvl ≤ c.level := by
  simpa [acceptedB] using h

theorem SL_LogArgCheck_eq_zero {c : LogCall} (h : validArgsB c = true) :
    SL_LogArgCheck c = SL_RESULT_SUCCESS := by
  obtain ⟨m, hm, hne, h0, h5⟩ := validArgsB_spec h
  have hlev : ¬ (c.level < eSL_LogLevel_Diagnostic ∨ eSL_LogLevel_None < c.level) := by
    simp only [not_or, not_lt]
    exact ⟨h0, h5⟩
  simp [SL_LogArgCheck, hm, hne, hlev]

theorem SL_AddLogEntry_count (c : LogCall) (st : SLState) :
    (SL_AddLogEntry c st).logEntryCount = st.logEntryCount + 1 := rfl

theorem SL_AddLogEntry_flushes (c : LogCall) (st : SLState) :
    (SL_AddLogEntry c st).flushes = st.flushes := rfl

theorem SL_AddLogEntry_store (c : LogCall) (st : SLState) :
    (SL_AddLogEntry c st).store = st.store := rfl

theorem SL_AddLogEntry_dbOpen (c : LogCall) (st : SLState) :
    (SL_AddLogEntry c st).dbOpen = st.dbOpen := rfl

theorem SL_AddLogEntry_logLevel (c : LogCall) (st : SLState) :
    (SL_AddLogEntry c st).logLevel = st.logLevel := rfl

theorem SL_AddLogEntry_length (c : LogCall) (st : SLState) :
    (SL_AddLogEntry c st).logEntries.length = st.logEntries.length := by
  simp [SL_AddLogEntry]

/-- An accepted call with room in the cache is stored directly. -/
theorem SL_Log_direct (N : Nat) (ora : StoreOracle) (c : LogCall) (st : SLState)
    (hv : validArgsB c = true) (hdb : st.dbOpen = true)
    (hg : st.logLevel ≤ c.level) (hlt : st.logEntryCount < N - 1) :
    SL_Log N ora c st = (SL_RESULT_SUCCESS, SL_AddLogEntry c st) := by
  simp [SL_Log, SL_LogArgCheck_eq_zero hv, hdb, hg, hlt]

/-- An accepted call with a full cache and a successful flush: the cache is
cleared, the batch is committed, the new entry lands in slot 0. -/
theorem SL_Log_flush_ok (N : Nat) (ora : StoreOracle) (c : LogCall) (st : SLState)
    (hv : validArgsB c = true) (hdb : st.dbOpen = true)
    (hg : st.logLevel ≤ c.level) (hfull : ¬ st.logEntryCount < N - 1)
    (hok : (SL_ProcessTransaction ora (st.logEntries.take st.logEntryCount)).1
      = SL_RESULT_SUCCESS) :
    SL_Log N ora c st = (SL_RESULT_SUCCESS, SL_AddLogEntry c
      { st with
        logEntryCount := 0
        logEntries := List.replicate N zeroEntry
        store := st.store
          ++ (SL_ProcessTransaction ora (st.logEntries.take st.logEntryCount)).2
        flushes := st.flushes + 1 }) := by
  simp [SL_Log, SL_LogArgCheck_eq_zero hv, hdb, hg, hfull, hok]

/-- An accepted call with a full cache and a failing flush: the store's code
is returned and nothing but the ghost flush counter (and the rolled-back,
hence unchanged, store) moves. -/
theorem SL_Log_flush_fail (N : Nat) (ora : StoreOracle) (c : LogCall) (st : SLState)
    (hv : validArgsB c = true) (hdb : st.dbOpen = true)
    (hg : st.logLevel ≤ c.level) (hfull : ¬ st.logEntryCount < N - 1)
    (hbad : (SL_ProcessTransaction ora (st.logEntries.take st.logEntryCount)).1
      ≠ SL_RESULT_SUCCESS) :
    SL_Log N ora c st
      = ((SL_ProcessTransaction ora (st.logEntries.take st.logEntryCount)).1,
        { st with
          store := st.store
            ++ (SL_ProcessTransaction ora (st.logEntries.take st.logEntryCount)).2
          flushes := st.flushes + 1 }) := by
  simp [SL_Log, SL_LogArgCheck_eq_zero hv, hdb, hg, hfull, hbad]

/-- A valid call below the threshold changes nothing and still succeeds. -/
theorem SL_Log_below (N : Nat) (ora : StoreOracle) (c : LogCall) (st : SLState)
    (hv : validArgsB c = true) (hdb : st.dbOpen = true)
    (hg : ¬ st.logLevel ≤ c.level) :
    SL_Log N ora c st = (SL_RESULT_SUCCESS, st) := by
  simp [SL_Log, SL_LogArgCheck_eq_zero hv, hdb, hg]

/-! ## SL_ProcessTransaction lemmas -/

theorem insertLoop_ok (rowCode : Nat → Int) (h : ∀ i, rowCode i = 0) :
    ∀ (l : List tSL_LogEntry) (i : Nat), insertLoop rowCode l i = Except.ok l := by
  intro l
  induction l with
  | nil => intro i; rfl
  | cons e t ih => intro i; simp [insertLoop, h i, ih (i + 1)]

/-- A fully successful transaction commits exactly the given entries, in
their original order. -/
theorem processTransaction_ok (ora : StoreOracle) (hora : StoreOK ora)
    (l : List tSL_LogEntry) :
    SL_ProcessTransaction ora l = (SL_RESULT_SUCCESS, l) := by
  obtain ⟨hb, hr, hc⟩ := hora
  simp [SL_ProcessTransaction, hb, hc, insertLoop_ok ora.rowCode hr l 0]

/-- A failed transaction commits nothing: the rollback (or the failed
begin/commit) leaves the store untouched. -/
theorem processTransaction_fail_pending (ora : StoreOracle) (l : List tSL_LogEntry)
    (h : (SL_ProcessTransaction ora l).1 ≠ SL_RESULT_SUCCESS) :
    (SL_ProcessTransaction ora l).2 = [] := by
  unfold SL_ProcessTransaction at h ⊢
  by_cases hb : ora.beginCode ≠ 0
  · simp [hb]
  · simp only [hb, if_false] at h ⊢
    rcases hml : insertLoop ora.rowCode l 0 with cc | pending
    · simp [hml]
    · simp only [hml] at h ⊢
      by_cases hc : ora.commitCode ≠ 0
      · simp [hc]
      · simp [hc] at h

/-! ## C1: a failed flush aborts the whole batch -/

/-- C1: when an accepted call finds the cache full and `SL_ProcessTransaction`
fails (BEGIN, any per-row bind/step, or COMMIT), `SL_Log` returns the store's
(non-success) code, the rolled-back transaction leaves the committed store
unchanged (no partial insert), the cache count and contents are exactly what
they were before the call, and the new entry is not appended. -/
theorem c1_flush_failure_aborts_batch (N : Nat) (ora : StoreOracle) (c : LogCall)
    (st : SLState)
    (hacc : acceptedB st.logLevel c = true) (hdb : st.dbOpen = true)
    (hfull : ¬ st.logEntryCount < N - 1)
    (hfail : (SL_ProcessTransaction ora (st.logEntries.take st.logEntryCount)).1
      ≠ SL_RESULT_SUCCESS) :
    (SL_Log N ora c st).1
        = (SL_ProcessTransaction ora (st.logEntries.take st.logEntryCount)).1
    ∧ (SL_Log N ora c st).1 ≠ SL_RESULT_SUCCESS
    ∧ (SL_Log N ora c st).2.logEntryCount = st.logEntryCount
    ∧ (SL_Log N ora c st).2.logEntries = st.logEntries
    ∧ (SL_Log N ora c st).2.store = st.store := by
  obtain ⟨hv, hg⟩ := acceptedB_spec hacc
  rw [SL_Log_flush_fail N ora c st hv hdb hg hfull hfail]
  refine ⟨rfl, hfail, rfl, rfl, ?_⟩
  simp [processTransaction_fail_pending ora _ hfail]

/-- Witness for C1: a two-slot cache holding one entry, a store whose row
insert fails with `SQLITE_ERROR`. -/
theorem c1_flush_failure_aborts_batch_witness :
    ((SL_ProcessTransaction failStore (c1State.logEntries.take c1State.logEntryCount)).1
        ≠ SL_RESULT_SUCCESS)
    ∧ ((SL_Log 2 failStore infoCall c1State).1 ≠ SL_RESULT_SUCCESS
      ∧ (SL_Log 2 failStore infoCall c1State).2.logEntryCount = c1State.logEntryCount
      ∧ (SL_Log 2 failStore infoCall c1State).2.logEntries = c1State.logEntries
      ∧ (SL_Log 2 failStore infoCall c1State).2.store = c1State.store) := by
  have h := c1_flush_failure_aborts_batch 2 failStore infoCall c1State (by decide)
    (by decide) (by decide) (by decide)
  exact ⟨by decide, h.2.1, h.2.2.1, h.2.2.2.1, h.2.2.2.2⟩

/-! ## C3: entries at level None -/

/-- C3: the spec says a call with `level == eSL_LogLevel_None` is rejected for
emission.  In the source, None (5) passes the range check and satisfies
`level >= gLogLevel` for every threshold (None is the largest level), so the
entry IS appended: here with the default Info threshold and even with the
threshold set to None ("log nothing"), the call returns success, the cache
count becomes 1, and the stored slot carries the label "None". -/
theorem c3_none_level_is_captured :
    (SL_Log 4 okStore noneLevelCall (initState 4)).1 = SL_RESULT_SUCCESS
    ∧ (SL_Log 4 okStore noneLevelCall (initState 4)).2.logEntryCount = 1
    ∧ (SL_Log 4 okStore noneLevelCall
        { initState 4 with logLevel := eSL_LogLevel_None }).2.logEntryCount = 1
    ∧ ((SL_Log 4 okStore noneLevelCall (initState 4)).2.logEntries.getD 0 zeroEntry).level
        = strBytes "None" ++ List.replicate 12 0 := by
  exact ⟨by decide, by decide, by decide, by decide⟩

/-! ## C2: the capacity boundary -/

/-- While the accepted calls fit strictly below `N - 1`, every one of them is
stored directly: no flush, no store I/O, count grows by one per call. -/
theorem runLogs_direct (N : Nat) (ora : StoreOracle) :
    ∀ (calls : List LogCall) (st : SLState),
      st.dbOpen = true →
      (∀ c ∈ calls, acceptedB st.logLevel c = true) →
      st.logEntryCount + calls.length ≤ N - 1 →
      (runLogs N ora calls st).logEntryCount = st.logEntryCount + calls.length
      ∧ (runLogs N ora calls st).flushes = st.flushes
      ∧ (runLogs N ora calls st).store = st.store
      ∧ (runLogs N ora calls st).dbOpen = true
      ∧ (runLogs N ora calls st).logLevel = st.logLevel := by
  intro calls
  induction calls with
  | nil =>
    intro st hdb hacc hfit
    exact ⟨rfl, rfl, rfl, hdb, rfl⟩
  | cons c rest ih =>
    intro st hdb hacc hfit
    have hc := hacc c (by simp)
    obtain ⟨hv, hg⟩ := acceptedB_spec hc
    have hlen : (c :: rest).length = rest.length + 1 := by simp
    have hlt : st.logEntryCount < N - 1 := by omega
    simp only [runLogs, SL_Log_direct N ora c st hv hdb hg hlt]
    have ih' := ih (SL_AddLogEntry c st)
      (by rw [SL_AddLogEntry_dbOpen]; exact hdb)
      (by intro d hd; rw [SL_AddLogEntry_logLevel]; exact hacc d (by simp [hd]))
      (by rw [SL_AddLogEntry_count]; omega)
    rcases ih' with ⟨h1, h2, h3, h4, h5⟩
    refine ⟨?_, ?_, ?_, h4, ?_⟩
    · rw [h1, SL_AddLogEntry_count]; omega
    · rw [h2, SL_AddLogEntry_flushes]
    · rw [h3, SL_AddLogEntry_store]
    · rw [h5, SL_AddLogEntry_logLevel]

/-- C2: from a freshly initialized session, `N - 1` accepted calls never
flush (the ghost flush counter and the store are untouched and the count ends
at `N - 1`); the `N`-th accepted call performs exactly one flush and, once
that flush succeeds, the cache holds exactly the one new entry. -/
theorem c2_capacity_boundary (N : Nat) (ora : StoreOracle) (calls : List LogCall)
    (c : LogCall) (st : SLState)
    (_hN : 2 ≤ N) (hdb : st.dbOpen = true) (hcnt0 : st.logEntryCount = 0)
    (hlen : calls.length = N - 1)
    (hacc : ∀ d ∈ calls, acceptedB st.logLevel d = true)
    (hc : acceptedB st.logLevel c = true)
    (hora : StoreOK ora) :
    (runLogs N ora calls st).flushes = st.flushes
    ∧ (runLogs N ora calls st).store = st.store
    ∧ (runLogs N ora calls st).logEntryCount = N - 1
    ∧ (SL_Log N ora c (runLogs N ora calls st)).2.flushes = st.flushes + 1
    ∧ (SL_Log N ora c (runLogs N ora calls st)).1 = SL_RESULT_SUCCESS
    ∧ (SL_Log N ora c (runLogs N ora calls st)).2.logEntryCount = 1 := by
  obtain ⟨hcount, hflush, hstore, hdb1, hlvl⟩ :=
    runLogs_direct N ora calls st hdb hacc (by omega)
  have hcnt1 : (runLogs N ora calls st).logEntryCount = N - 1 := by omega
  have hc1 : acceptedB (runLogs N ora calls st).logLevel c = true := by
    rw [hlvl]; exact hc
  obtain ⟨hv, hg⟩ := acceptedB_spec hc1
  have hfull : ¬ (runLogs N ora calls st).logEntryCount < N - 1 := by omega
  have hok := processTransaction_ok ora hora
    ((runLogs N ora calls st).logEntries.take (runLogs N ora calls st).logEntryCount)
  rw [SL_Log_flush_ok N ora c (runLogs N ora calls st) hv hdb1 hg hfull (by rw [hok])]
  refine ⟨hflush, hstore, hcnt1, ?_, rfl, ?_⟩
  · simp [SL_AddLogEntry_flushes, hflush]
  · simp [SL_AddLogEntry_count]

/-- Witness for C2: capacity 2, one accepted call fills the cache to
`N - 1 = 1` with no flush; the second accepted call flushes once and leaves
one buffered entry. -/
theorem c2_capacity_boundary_witness :
    acceptedB (initState 2).logLevel infoCall = true
    ∧ ((runLogs 2 okStore [infoCall] (initState 2)).flushes = (initState 2).flushes
      ∧ (runLogs 2 okStore [infoCall] (initState 2)).store = (initState 2).store
      ∧ (runLogs 2 okStore [infoCall] (initState 2)).logEntryCount = 1
      ∧ (SL_Log 2 okStore infoCall
          (runLogs 2 okStore [infoCall] (initState 2))).2.flushes
            = (initState 2).flushes + 1
      ∧ (SL_Log 2 okStore infoCall
          (runLogs 2 okStore [infoCall] (initState 2))).1 = SL_RESULT_SUCCESS
      ∧ (SL_Log 2 okStore infoCall
          (runLogs 2 okStore [infoCall] (initState 2))).2.logEntryCount = 1) := by
  have h := c2_capacity_boundary 2 okStore [infoCall] infoCall (initState 2)
    (by decide) (by decide) (by decide) (by decide) (by decide) (by decide)
    ⟨rfl, fun _ => rfl, rfl⟩
  exact ⟨by decide, h⟩

/-! ## C4: the level gate -/

/-- C4: with valid arguments, an initialized session, a cache respecting the
capacity bound and a store that accepts everything, an entry is captured
(the total of committed rows and buffered entries grows by exactly one) if
and only if its level is at least the current threshold; a below-threshold
call leaves the state exactly unchanged and still returns success, and every
such call returns success. -/
theorem c4_level_gate (N : Nat) (ora : StoreOracle) (c : LogCall) (st : SLState)
    (hv : validArgsB c = true) (hdb : st.dbOpen = true)
    (hlen : st.logEntries.length = N) (hcnt : st.logEntryCount ≤ N - 1)
    (hora : StoreOK ora) :
    ((SL_Log N ora c st).2.store.length + (SL_Log N ora c st).2.logEntryCount
        = st.store.length + st.logEntryCount + 1 ↔ st.logLevel ≤ c.level)
    ∧ (¬ st.logLevel ≤ c.level →
        (SL_Log N ora c st).2 = st ∧ (SL_Log N ora c st).1 = SL_RESULT_SUCCESS)
    ∧ (SL_Log N ora c st).1 = SL_RESULT_SUCCESS := by
  by_cases hg : st.logLevel ≤ c.level
  · by_cases hlt : st.logEntryCount < N - 1
    · rw [SL_Log_direct N ora c st hv hdb hg hlt]
      refine ⟨?_, fun hng => absurd hg hng, rfl⟩
      simp only [SL_AddLogEntry_store, SL_AddLogEntry_count]
      exact iff_of_true (by omega) hg
    · have hok := processTransaction_ok ora hora (st.logEntries.take st.logEntryCount)
      rw [SL_Log_flush_ok N ora c st hv hdb hg hlt (by rw [hok])]
      refine ⟨?_, fun hng => absurd hg hng, rfl⟩
      simp only [SL_AddLogEntry_store, SL_AddLogEntry_count, hok]
      have htake : (st.logEntries.take st.logEntryCount).length = st.logEntryCount := by
        rw [List.length_take, hlen]
        omega
      refine iff_of_true ?_ hg
      simp only [List.length_append, htake]
  · rw [SL_Log_below N ora c st hv hdb hg]
    refine ⟨?_, fun _ => ⟨rfl, rfl⟩, rfl⟩
    refine iff_of_false ?_ hg
    show ¬ (st.store.length + st.logEntryCount = st.store.length + st.logEntryCount + 1)
    omega

/-- Witness for C4: a Diagnostic call against the default Info threshold is
not captured yet succeeds. -/
theorem c4_level_gate_witness :
    validArgsB diagCall = true
    ∧ ¬ (initState 2).logLevel ≤ diagCall.level
    ∧ ((SL_Log 2 okStore diagCall (initState 2)).2 = initState 2
      ∧ (SL_Log 2 okStore diagCall (initState 2)).1 = SL_RESULT_SUCCESS) := by
  have h := c4_level_gate 2 okStore diagCall (initState 2) (by decide) (by decide)
    (by decide) (by decide) ⟨rfl, fun _ => rfl, rfl⟩
  exact ⟨by decide, by decide, h.2.1 (by decide)⟩

/-! ## C6: order preservation across flush boundaries -/

theorem replicate_head_of_pos {α : Type} (n : Nat) (z : α) (h : 0 < n) :
    List.replicate n z = z :: List.replicate (n - 1) z := by
  cases n with
  | zero => omega
  | succ m => simp [List.replicate_succ]

theorem drop_one_replicate {α : Type} (k : Nat) (z : α) :
    (List.replicate k z).drop 1 = List.replicate (k - 1) z := by
  cases k with
  | zero => simp
  | succ m => simp [List.replicate_succ]

/-- The slot the next append writes into is zeroed in every state satisfying
the cache invariant. -/
theorem slot_is_zero {N : Nat} {st : SLState} (hinv : BufferInv N st)
    (hlt : st.logEntryCount < N) :
    st.logEntries.getD st.logEntryCount zeroEntry = zeroEntry := by
  obtain ⟨hlen, hcnt, hdrop⟩ := hinv
  have hpos : 0 < N - st.logEntryCount := by omega
  rw [replicate_head_of_pos _ _ hpos] at hdrop
  exact getD_of_drop_cons _ _ _ _ _ hdrop

/-- One accepted call against a working store keeps the session open, the
threshold unchanged, the cache invariant intact, and extends the sequence
"committed rows, then buffered entries" by exactly the new entry at its end. -/
theorem SL_Log_accepted_step (N : Nat) (ora : StoreOracle) (c : LogCall) (st : SLState)
    (hN : 2 ≤ N) (hdb : st.dbOpen = true)
    (hacc : acceptedB st.logLevel c = true)
    (hora : StoreOK ora) (hinv : BufferInv N st) :
    (SL_Log N ora c st).2.dbOpen = true
    ∧ (SL_Log N ora c st).2.logLevel = st.logLevel
    ∧ BufferInv N (SL_Log N ora c st).2
    ∧ bufStore (SL_Log N ora c st).2 = bufStore st ++ [entryOf c] := by
  obtain ⟨hv, hg⟩ := acceptedB_spec hacc
  obtain ⟨hlen, hcnt, hdrop⟩ := hinv
  by_cases hlt : st.logEntryCount < N - 1
  · rw [SL_Log_direct N ora c st hv hdb hg hlt]
    have hltN : st.logEntryCount < N := by omega
    have hslot : st.logEntries.getD st.logEntryCount zeroEntry = zeroEntry :=
      slot_is_zero ⟨hlen, hcnt, hdrop⟩ hltN
    have hltLen : st.logEntryCount < st.logEntries.length := by omega
    refine ⟨?_, ?_, ⟨?_, ?_, ?_⟩, ?_⟩
    · rw [SL_AddLogEntry_dbOpen]; exact hdb
    · exact SL_AddLogEntry_logLevel c st
    · rw [SL_AddLogEntry_length]; exact hlen
    · rw [SL_AddLogEntry_count]; omega
    · show (st.logEntries.set st.logEntryCount _).drop (st.logEntryCount + 1)
        = List.replicate (N - (st.logEntryCount + 1)) zeroEntry
      rw [drop_set_succ]
      have h1 : st.logEntries.drop (st.logEntryCount + 1)
          = (st.logEntries.drop st.logEntryCount).drop 1 := by
        rw [List.drop_drop]
      rw [h1, hdrop, drop_one_replicate]
      congr 1
    · show bufStore (SL_AddLogEntry c st) = bufStore st ++ [entryOf c]
      unfold bufStore SL_AddLogEntry
      simp only [hslot]
      rw [take_set_succ st.logEntries st.logEntryCount (writeEntry c zeroEntry) hltLen]
      simp [entryOf, List.append_assoc]
  · have hok := processTransaction_ok ora hora (st.logEntries.take st.logEntryCount)
    rw [SL_Log_flush_ok N ora c st hv hdb hg hlt (by rw [hok])]
    have hNpos : 0 < N := by omega
    have hzero : (List.replicate N zeroEntry).getD 0 zeroEntry = zeroEntry := by
      rw [replicate_head_of_pos N zeroEntry hNpos]
      rfl
    have hlenrep : (List.replicate N zeroEntry).length = N := by simp
    refine ⟨?_, ?_, ⟨?_, ?_, ?_⟩, ?_⟩
    · rw [SL_AddLogEntry_dbOpen]; exact hdb
    · exact SL_AddLogEntry_logLevel c _
    · rw [SL_AddLogEntry_length]; exact hlenrep
    · rw [SL_AddLogEntry_count]
      show 0 + 1 ≤ N - 1
      omega
    · show ((List.replicate N zeroEntry).set 0 _).drop (0 + 1)
        = List.replicate (N - (0 + 1)) zeroEntry
      rw [drop_set_succ, drop_one_replicate]
    · show bufStore (SL_AddLogEntry c _) = bufStore st ++ [entryOf c]
      unfold bufStore SL_AddLogEntry
      simp only [hok, hzero]
      rw [take_set_succ (List.replicate N zeroEntry) 0 (writeEntry c zeroEntry)
        (by simpa using hNpos)]
      simp [entryOf, List.append_assoc]

/-- Accepted calls against a working store: the committed rows followed by
the buffered entries always equal the original contents extended by the new
entries in exact call order — independently of how many flushes happened. -/
theorem runLogs_accepted (N : Nat) (ora : StoreOracle) (hN : 2 ≤ N) (hora : StoreOK ora) :
    ∀ (calls : List LogCall) (st : SLState),
      st.dbOpen = true → BufferInv N st →
      (∀ c ∈ calls, acceptedB st.logLevel c = true) →
      bufStore (runLogs N ora calls st) = bufStore st ++ calls.map entryOf := by
  intro calls
  induction calls with
  | nil =>
    intro st _ _ _
    simp [runLogs]
  | cons c rest ih =>
    intro st hdb hinv hacc
    obtain ⟨hdb', hlvl', hinv', hbuf'⟩ :=
      SL_Log_accepted_step N ora c st hN hdb (hacc c (by simp)) hora hinv
    simp only [runLogs]
    rw [ih (SL_Log N ora c st).2 hdb' hinv'
      (by intro d hd; rw [hlvl']; exact hacc d (by simp [hd]))]
    rw [hbuf']
    simp

/-- C6: for any sequence of accepted entries spanning any number of flushes
(the cache invariant holds, the session is open, the store accepts every
operation), the committed rows followed by the still-buffered entries equal
the pre-existing contents extended by the new entries in exactly the order
the calls were made; since each flush only appends the buffered prefix to the
store, the store rows (ascending auto-increment id) appear in exactly the
call order, with no reordering inside a batch or across a flush boundary. -/
theorem c6_order_preserved (N : Nat) (ora : StoreOracle) (calls : List LogCall)
    (st : SLState)
    (hN : 2 ≤ N) (hora : StoreOK ora) (hdb : st.dbOpen = true)
    (hinv : BufferInv N st)
    (hacc : ∀ c ∈ calls, acceptedB st.logLevel c = true) :
    (runLogs N ora calls st).store
      ++ (runLogs N ora calls st).logEntries.take (runLogs N ora calls st).logEntryCount
    = (st.store ++ st.logEntries.take st.logEntryCount) ++ calls.map entryOf :=
  runLogs_accepted N ora hN hora calls st hdb hinv hacc

/-- Witness for C6: three accepted calls through a two-slot cache (two
flushes happen along the way). -/
theorem c6_order_preserved_witness :
    (∀ c ∈ [infoCall, infoCall, infoCall],
      acceptedB (initState 2).logLevel c = true)
    ∧ (runLogs 2 okStore [infoCall, infoCall, infoCall] (initState 2)).store
        ++ (runLogs 2 okStore [infoCall, infoCall, infoCall] (initState 2)).logEntries.take
            (runLogs 2 okStore [infoCall, infoCall, infoCall] (initState 2)).logEntryCount
      = ((initState 2).store
          ++ (initState 2).logEntries.take (initState 2).logEntryCount)
        ++ [infoCall, infoCall, infoCall].map entryOf := by
  have h := c6_order_preserved 2 okStore [infoCall, infoCall, infoCall] (initState 2)
    (by decide) ⟨rfl, fun _ => rfl, rfl⟩ (by decide) ⟨rfl, by decide, rfl⟩ (by decide)
  exact ⟨by decide, h⟩

/-! ## C8: the buffer after Initialize and after flushes -/

/-- C8: the spec says the cache is empty (count 0, slots zeroed) after every
successful Initialize, including one following a Terminate whose teardown
flush failed.  The source zeroes the slots in `SL_Initialize` but never
resets `gLogEntryCount`: after Initialize, one accepted entry, a Terminate
whose flush the store rejects (which still closes the session), and a second,
fully successful Initialize, the count is still 1, not 0. -/
theorem c8_reinit_keeps_stale_count :
    c8AfterLog.logEntryCount = 1
    ∧ c8Terminate.1 ≠ SL_RESULT_SUCCESS
    ∧ c8Terminate.2.dbOpen = false
    ∧ c8Reinit.1 = SL_RESULT_SUCCESS
    ∧ c8Reinit.2.logEntryCount = 1 := by
  exact ⟨by decide, by decide, by decide, by decide, by decide⟩

/-! ## C9: the threshold at session start -/

/-- C9 counterexample: Initialize, SetLevel(Error), Terminate (all
successful), then a second successful Initialize — `SL_GetLogLevel` reports
Error, not Info, immediately after that successful Initialize, refuting the
claim that the threshold is Info after every successful Initialize. -/
theorem c9_threshold_persists :
    c9Terminate.1 = SL_RESULT_SUCCESS
    ∧ c9Reinit.1 = SL_RESULT_SUCCESS
    ∧ (SL_GetLogLevel true c9Reinit.2).2 = some eSL_LogLevel_Error
    ∧ (SL_GetLogLevel true c9Reinit.2).2 ≠ some eSL_LogLevel_Info := by
  exact ⟨by decide, by decide, by decide, by decide⟩

set_option maxHeartbeats 1000000 in
/-- `SL_Initialize` never touches `gLogLevel`, on any of its paths. -/
theorem sl_init_preserves_logLevel (N : Nat) (ora : InitOracle) (p : Option (List Nat))
    (st : SLState) :
    ( SL_Initialize N ora p st).2.logLevel = st.logLevel := by
  unfold SL_Initialize
  rcases p with _ | q
  · rfl
  · dsimp only
    repeat' split
    all_goals rfl

/-- C9 amended: the threshold is Info at process start and `SL_Initialize`
never modifies it; hence `SL_GetLogLevel` reports Info right after a
successful Initialize precisely when no `SL_SetLogLevel` has changed the
threshold before it (e.g. after the first Initialize of the process). -/
theorem c9_amended_default_info (N : Nat) (ora : InitOracle) (p : Option (List Nat))
    (st : SLState) (h : st.logLevel = eSL_LogLevel_Info) :
    (SL_GetLogLevel true ( SL_Initialize N ora p st).2).2 = some eSL_LogLevel_Info := by
  simp [SL_GetLogLevel, sl_init_preserves_logLevel, h]

/-- Witness for the amended C9: the first Initialize of a fresh process. -/
theorem c9_amended_default_info_witness :
    (startState 2).logLevel = eSL_LogLevel_Info
    ∧ (SL_GetLogLevel true ( SL_Initialize 2 okInitOracle (some testPath)
        (startState 2)).2).2 = some eSL_LogLevel_Info := by
  exact ⟨rfl, c9_amended_default_info 2 okInitOracle (some testPath) (startState 2) rfl⟩

/-! ## C10: Terminate flushes and always releases -/

/-- C10: terminating an initialized session with buffered entries forces
exactly one flush, and — whether or not that flush succeeds — the returned
result is the flush's result while the insert statement is finalized and the
database handle is released (the session is no longer initialized). -/
theorem c10_terminate_releases (N : Nat) (ora : StoreOracle) (st : SLState)
    (hdb : st.dbOpen = true) (hcnt : 0 < st.logEntryCount) :
    (SL_Terminate N ora st).2.dbOpen = false
    ∧ (SL_Terminate N ora st).2.insertStmt = false
    ∧ (SL_Terminate N ora st).2.flushes = st.flushes + 1
    ∧ (SL_Terminate N ora st).1
        = (SL_ProcessTransaction ora (st.logEntries.take st.logEntryCount)).1 := by
  by_cases hok : (SL_ProcessTransaction ora (st.logEntries.take st.logEntryCount)).1
      = SL_RESULT_SUCCESS
  · simp [SL_Terminate, hdb, hcnt, hok]
  · simp [SL_Terminate, hdb, hcnt, hok]

/-- Witness for C10: teardown with one buffered entry and a store that
rejects the flush — the failure is reported, yet the handle is released. -/
theorem c10_terminate_releases_witness :
    0 < c1State.logEntryCount
    ∧ ((SL_Terminate 2 failStore c1State).2.dbOpen = false
      ∧ (SL_Terminate 2 failStore c1State).2.insertStmt = false
      ∧ (SL_Terminate 2 failStore c1State).2.flushes = c1State.flushes + 1
      ∧ (SL_Terminate 2 failStore c1State).1
          = (SL_ProcessTransaction failStore
              (c1State.logEntries.take c1State.logEntryCount)).1) := by
  have h := c10_terminate_releases 2 failStore c1State (by decide) (by decide)
  exact ⟨by decide, h⟩

end SqliteLogger
